import Mathlib

/-!
Verification of the interactive Bluetooth scanner utilities
(src/bluetooth_scanner.py, src/bluetooth_scanner_bleak.py).

The Python sources are shallowly embedded: interactive input is a list of
events (a typed line or a keyboard interrupt; an exhausted event list models
end-of-input, where Python input() raises EOFError), printing is modelled by
returning the list of printed strings, and calls into the external Bluetooth
backends (PyBluez / Bleak) are modelled by an Except value supplied as a
parameter (ok = the value the backend returned, error = the exception it
raised, which the source catches at the call site).
-/

namespace BTScan

/-- Python whitespace for str.strip, restricted to the ASCII range the
program ever sees. -/
def isPySpace (c : Char) : Bool :=
  c = ' ' ∨ c = '\t' ∨ c = '\n' ∨ c = '\r' ∨ c = '\x0b' ∨ c = '\x0c'

/-- Embedding of Python str.strip(): drop whitespace from both ends. -/
def pyStrip (s : String) : String :=
  String.mk (((s.data.dropWhile isPySpace).reverse.dropWhile isPySpace).reverse)

/-- Embedding of Python str.lower() on ASCII strings. -/
def pyLower (s : String) : String :=
  String.mk (s.data.map Char.toLower)

/-- Numeric value of an ASCII digit. -/
def digitVal (c : Char) : Nat := c.toNat - 48

/-- Digits (with Python's single underscores between digits) accumulated
into a value; any other character is a parse failure. -/
def digitsVal : List Char → Nat → Option Nat
  | [], acc => some acc
  | c :: cs, acc =>
    if c.isDigit then digitsVal cs (acc * 10 + digitVal c)
    else if c = '_' then
      match cs with
      | d :: ds => if d.isDigit then digitsVal ds (acc * 10 + digitVal d) else none
      | [] => none
    else none

/-- A Python int literal digit part: at least one digit, then digits with
optional single underscores between them. -/
def pyDigitPart : List Char → Option Nat
  | [] => none
  | c :: cs => if c.isDigit then digitsVal cs (digitVal c) else none

/-- Embedding of Python int(s) on a decimal string: surrounding whitespace
stripped, an optional sign, then a digit part; None models ValueError. -/
def pyInt (s : String) : Option Int :=
  match (pyStrip s).data with
  | '+' :: rest => (pyDigitPart rest).map (fun n => (n : Int))
  | '-' :: rest => (pyDigitPart rest).map (fun n => -(n : Int))
  | rest => (pyDigitPart rest).map (fun n => (n : Int))

/-- One interactive input event: a line typed at the prompt, or a
KeyboardInterrupt raised while waiting for input. -/
inductive InEvent where
  | line (s : String)
  | interrupt
deriving DecidableEq

/-- Printed by select_device when int() raises ValueError. -/
def invalidInputMsg : String :=
  "[!] Invalid input. Please enter a number or \x27q\x27 to quit."

/-- Printed by select_device when the number is outside [1, len(devices)]. -/
def rangeMsg (n : Nat) : String :=
  "[!] Please enter a number between 1 and " ++ toString n

/-- Printed by select_device on KeyboardInterrupt. -/
def cancelMsg : String := "\n[!] Cancelled by user."

/-- Embedding of select_device (src/bluetooth_scanner.py lines 74-101 and,
with the same body, src/bluetooth_scanner_bleak.py lines 86-113; the element
type is a parameter since the loop never looks inside a device). Returns the
outcome paired with the lines it printed: none models the uncaught EOFError
raised by input() once the events run out, some none models returning None
(quit or interrupt) and some (some d) a selected device. The catalog itself
is read-only throughout: the embedding is a pure function of it. -/
def select_device {α : Type} (devices : List α) : List InEvent → Option (Option α) × List String
  | [] => (none, [])
  | InEvent.interrupt :: _ => (some none, [cancelMsg])
  | InEvent.line s :: rest =>
    let choice := pyStrip s
    if pyLower choice = "q" then (some none, [])
    else
      match pyInt choice with
      | some n =>
        if 1 ≤ n ∧ n ≤ (devices.length : Int) then
          match devices.get? (n - 1).toNat with
          | some d => (some (some d), [])
          | none => (some none, [])
        else
          let r := select_device devices rest
          (r.1, rangeMsg devices.length :: r.2)
      | none =>
        let r := select_device devices rest
        (r.1, invalidInputMsg :: r.2)

/-- C2: whatever the input events, if select_device resolves to a selected
device then that device is an element of the catalog it was given; it never
synthesizes or returns an out-of-range value (the catalog, being an argument
of a pure function, is also never mutated). -/
theorem select_device_mem {α : Type} (devices : List α) (events : List InEvent) (d : α)
    (h : (select_device devices events).1 = some (some d)) : d ∈ devices := by
  induction events with
  | nil => simp [select_device] at h
  | cons e rest ih =>
    cases e with
    | interrupt => simp [select_device] at h
    | line s =>
      by_cases hq : pyLower (pyStrip s) = "q"
      · rw [show select_device devices (InEvent.line s :: rest) = (some none, []) from by
          simp [select_device, hq]] at h
        simp at h
      · cases hp : pyInt (pyStrip s) with
        | none =>
          have heq : select_device devices (InEvent.line s :: rest)
              = ((select_device devices rest).1,
                 invalidInputMsg :: (select_device devices rest).2) := by
            simp [select_device, hq, hp]
          rw [heq] at h
          exact ih h
        | some n =>
          by_cases hr : 1 ≤ n ∧ n ≤ (devices.length : Int)
          · cases hg : devices[n.toNat - 1]? with
            | none =>
              have heq : select_device devices (InEvent.line s :: rest) = (some none, []) := by
                simp [select_device, hq, hp, hr, hg]
              rw [heq] at h
              simp at h
            | some d0 =>
              have heq : select_device devices (InEvent.line s :: rest)
                  = (some (some d0), []) := by
                simp [select_device, hq, hp, hr, hg]
              rw [heq] at h
              simp at h
              exact h ▸ List.getElem?_mem hg
          · have heq : select_device devices (InEvent.line s :: rest)
                = ((select_device devices rest).1,
                   rangeMsg devices.length :: (select_device devices rest).2) := by
              simp [select_device, hq, hp, hr]
            rw [heq] at h
            exact ih h

/-- C2 witness: on the catalog [10, 20] the input line "2" selects the
element 20, which indeed belongs to the catalog. -/
theorem select_device_mem_witness : (20 : Nat) ∈ [10, 20] :=
  select_device_mem [10, 20] [InEvent.line "2"] 20 (by decide)

/-- C3: on a non-empty catalog, a line whose stripped, lowercased content is
the quit token q makes select_device return None at once, printing nothing. -/
theorem select_device_quit {α : Type} (devices : List α) (hne : devices ≠ [])
    (s : String) (rest : List InEvent)
    (hq : pyLower (pyStrip s) = "q") :
    select_device devices (InEvent.line s :: rest) = (some none, []) := by
  simp [select_device, hq]

/-- C3 witness: the inputs " Q ", "q" and "Q" each yield no selection. -/
theorem select_device_quit_witness :
    select_device [0] [InEvent.line " Q "] = (some none, [])
    ∧ select_device [0] [InEvent.line "q"] = (some none, [])
    ∧ select_device [0] [InEvent.line "Q"] = (some none, []) :=
  ⟨select_device_quit [0] (by decide) " Q " [] (by decide),
   select_device_quit [0] (by decide) "q" [] (by decide),
   select_device_quit [0] (by decide) "Q" [] (by decide)⟩

/-- C4: on a non-empty catalog, a malformed line (unparseable as an int, or
parsing to a number below 1 or above the catalog length) never resolves the
selection: the result is the one obtained from the remaining events, with an
invalid-input notice (parse failure) or a range notice (out of bounds)
printed first; the catalog is untouched (the embedding is pure in it). -/
theorem select_device_malformed {α : Type} (devices : List α) (hne : devices ≠ [])
    (s : String) (rest : List InEvent)
    (hq : pyLower (pyStrip s) ≠ "q")
    (hbad : pyInt (pyStrip s) = none
      ∨ ∃ n : Int, pyInt (pyStrip s) = some n ∧ (n < 1 ∨ (devices.length : Int) < n)) :
    select_device devices (InEvent.line s :: rest)
      = ((select_device devices rest).1,
         (match pyInt (pyStrip s) with
          | none => invalidInputMsg
          | some _ => rangeMsg devices.length) :: (select_device devices rest).2) := by
  rcases hbad with h | ⟨n, hn, hrange⟩
  · simp [select_device, hq, h]
  · have hnr : ¬ (1 ≤ n ∧ n ≤ (devices.length : Int)) := by omega
    simp [select_device, hq, hn, hnr]

/-- C4 witness: on the catalog [10, 20], the lines "abc", "0", "-1" and "5"
each re-prompt with the corresponding notice and select nothing. -/
theorem select_device_malformed_witness :
    select_device [10, 20] [InEvent.line "abc"] = (none, [invalidInputMsg])
    ∧ select_device [10, 20] [InEvent.line "0"] = (none, [rangeMsg 2])
    ∧ select_device [10, 20] [InEvent.line "-1"] = (none, [rangeMsg 2])
    ∧ select_device [10, 20] [InEvent.line "5"] = (none, [rangeMsg 2]) :=
  ⟨(select_device_malformed [10, 20] (by decide) "abc" [] (by decide)
      (Or.inl (by decide))).trans (by decide),
   (select_device_malformed [10, 20] (by decide) "0" [] (by decide)
      (Or.inr ⟨0, by decide, by decide⟩)).trans (by decide),
   (select_device_malformed [10, 20] (by decide) "-1" [] (by decide)
      (Or.inr ⟨-1, by decide, by decide⟩)).trans (by decide),
   (select_device_malformed [10, 20] (by decide) "5" [] (by decide)
      (Or.inr ⟨5, by decide, by decide⟩)).trans (by decide)⟩

/-- Exceptions a backend call may raise: PyBluez raises
bluetooth.BluetoothError (caught separately in list_sdp_services) and
anything else is a generic exception; the payload is str(e). -/
inductive PyErr where
  | bluetoothError (msg : String)
  | otherError (msg : String)
deriving DecidableEq

/-- str(e) of a backend exception. -/
def pyErrMsg : PyErr → String
  | PyErr.bluetoothError m => m
  | PyErr.otherError m => m

/-- Python truthiness fallback used on names: None and the empty string are
replaced by the literal placeholder. -/
def effName : Option String → String
  | some s => if s = "" then "<Unknown>" else s
  | none => "<Unknown>"

/-- One device as handed back by BleakScanner.discover with return_adv=True:
its address, its (possibly missing) name, and the advertisement rssi when the
adv data has that attribute. -/
structure RawDevice where
  address : String
  name : Option String
  rssi : Option Int
deriving DecidableEq

namespace Bleak

/-- The tuple (device.address, name, rssi) appended per discovered device in
discover_devices (src/bluetooth_scanner_bleak.py lines 50-54): a falsy name
becomes "<Unknown>" and a missing rssi attribute becomes 0. -/
def entryOf (d : RawDevice) : String × String × Int :=
  (d.address, effName d.name, d.rssi.getD 0)

/-- The sort key x[2] (the rssi slot) of a device tuple. -/
def rssiOf (x : String × String × Int) : Int := x.2.2

/-- Insertion into a descending-by-rssi list, placing the new element after
every element whose key is at least as large (so equal keys keep their
original relative order, as Python's stable sort does). -/
def insertByRssi (x : String × String × Int) :
    List (String × String × Int) → List (String × String × Int)
  | [] => [x]
  | y :: ys => if rssiOf x ≤ rssiOf y then y :: insertByRssi x ys else x :: y :: ys

/-- device_list.sort(key=lambda x: x[2], reverse=True): a stable descending
sort by the rssi slot, modelled as stable insertion sort. -/
def sortByRssiDesc (l : List (String × String × Int)) : List (String × String × Int) :=
  l.foldl (fun acc x => insertByRssi x acc) []

/-- Embedding of discover_devices (src/bluetooth_scanner_bleak.py lines
34-62): the backend result is mapped to (address, name, rssi) tuples and
stably sorted by descending rssi; a backend exception yields the empty list. -/
def discover_devices (backend : Except PyErr (List RawDevice)) :
    List (String × String × Int) :=
  match backend with
  | Except.ok raw => sortByRssiDesc (raw.map entryOf)
  | Except.error _ => []

/-- Descending order on the rssi slots. -/
def SortedDesc (l : List (String × String × Int)) : Prop :=
  l.Pairwise (fun a b => rssiOf b ≤ rssiOf a)

theorem mem_insertByRssi {x z : String × String × Int}
    {l : List (String × String × Int)} (h : z ∈ insertByRssi x l) : z = x ∨ z ∈ l := by
  induction l with
  | nil =>
    rw [insertByRssi] at h
    exact Or.inl (List.mem_singleton.mp h)
  | cons y ys ih =>
    rw [insertByRssi] at h
    split at h
    · rcases List.mem_cons.mp h with rfl | h2
      · exact Or.inr (List.mem_cons_self _ _)
      · rcases ih h2 with rfl | h3
        · exact Or.inl rfl
        · exact Or.inr (List.mem_cons_of_mem _ h3)
    · rcases List.mem_cons.mp h with rfl | h2
      · exact Or.inl rfl
      · exact Or.inr h2

theorem sortedDesc_insertByRssi {x : String × String × Int}
    {l : List (String × String × Int)} (h : SortedDesc l) :
    SortedDesc (insertByRssi x l) := by
  induction l with
  | nil => simp [insertByRssi, SortedDesc]
  | cons y ys ih =>
    rw [SortedDesc, List.pairwise_cons] at h
    obtain ⟨hy, hys⟩ := h
    rw [insertByRssi]
    split
    case isTrue hxy =>
      rw [SortedDesc, List.pairwise_cons]
      refine ⟨?_, ih hys⟩
      intro z hz
      rcases mem_insertByRssi hz with rfl | hz2
      · exact hxy
      · exact hy z hz2
    case isFalse hxy =>
      rw [SortedDesc, List.pairwise_cons]
      refine ⟨?_, List.pairwise_cons.mpr ⟨hy, hys⟩⟩
      intro z hz
      rcases List.mem_cons.mp hz with rfl | hz2
      · exact (not_le.mp hxy).le
      · exact le_trans (hy z hz2) (not_le.mp hxy).le

theorem filter_insertByRssi {x : String × String × Int}
    {l : List (String × String × Int)} (h : SortedDesc l) (k : Int) :
    (insertByRssi x l).filter (fun d => rssiOf d == k)
      = if rssiOf x = k
        then l.filter (fun d => rssiOf d == k) ++ [x]
        else l.filter (fun d => rssiOf d == k) := by
  induction l with
  | nil =>
    rw [insertByRssi]
    by_cases hk : rssiOf x = k <;> simp [hk, List.filter_cons]
  | cons y ys ih =>
    rw [SortedDesc, List.pairwise_cons] at h
    obtain ⟨hy, hys⟩ := h
    rw [insertByRssi]
    split
    case isTrue hxy =>
      rw [List.filter_cons, List.filter_cons, ih hys]
      by_cases hk : rssiOf x = k <;> by_cases hyk : rssiOf y = k <;>
        simp [hk, hyk]
    case isFalse hxy =>
      have hyx : rssiOf y < rssiOf x := not_le.mp hxy
      by_cases hk : rssiOf x = k
      · have hnil : (y :: ys).filter (fun d => rssiOf d == k) = [] := by
          rw [List.filter_eq_nil_iff]
          intro z hz
          have hzy : rssiOf z ≤ rssiOf y := by
            rcases List.mem_cons.mp hz with rfl | hz2
            · exact le_refl _
            · exact hy z hz2
          have hlt : rssiOf z < k := lt_of_le_of_lt hzy (hk ▸ hyx)
          simp [hlt.ne]
        rw [List.filter_cons]
        simp [hk, hnil, List.filter_cons]
      · rw [List.filter_cons]
        simp [hk]

theorem sortedDesc_sortAux (l : List (String × String × Int)) :
    ∀ acc, SortedDesc acc →
      SortedDesc (l.foldl (fun a x => insertByRssi x a) acc) := by
  induction l with
  | nil => intro acc h; simpa using h
  | cons x xs ih =>
    intro acc h
    rw [List.foldl_cons]
    exact ih _ (sortedDesc_insertByRssi h)

theorem filter_sortAux (l : List (String × String × Int)) :
    ∀ acc, SortedDesc acc → ∀ k : Int,
      (l.foldl (fun a x => insertByRssi x a) acc).filter (fun d => rssiOf d == k)
        = acc.filter (fun d => rssiOf d == k) ++ l.filter (fun d => rssiOf d == k) := by
  induction l with
  | nil => intro acc h k; simp
  | cons x xs ih =>
    intro acc h k
    rw [List.foldl_cons, ih _ (sortedDesc_insertByRssi h) k,
      filter_insertByRssi h k, List.filter_cons]
    by_cases hk : rssiOf x = k <;> simp [hk]

end Bleak

/-- The discovery result of the BLE scenario of the claim: signal strengths
-70, -40, and an advertisement with no rssi attribute. -/
def bleExampleRaw : List RawDevice :=
  [⟨"AA:AA", some "A", some (-70)⟩, ⟨"BB:BB", some "B", some (-40)⟩,
   ⟨"CC:CC", some "C", none⟩]

/-- C1 counterexample: for the signal strengths [-70, -40, None] the BLE
discover_devices does NOT order the devices as [-40, -70, None]; the
device with the absent reading is substituted with 0 and therefore comes
FIRST, so the order is [None, -40, -70]. -/
theorem bleak_discover_counterexample :
    Bleak.discover_devices (Except.ok bleExampleRaw)
        ≠ [("BB:BB", "B", -40), ("AA:AA", "A", -70), ("CC:CC", "C", 0)]
    ∧ (Bleak.discover_devices (Except.ok bleExampleRaw)).map (fun d => d.2.2)
        = [0, -40, -70] := by decide

/-- C1 (amended): the BLE discover_devices returns the discovered devices
sorted by descending effective signal strength, where an absent reading is
replaced by the sentinel 0 — which ranks above every negative dBm reading,
not below; ties keep discovery order (for each key the filtered subsequence
is exactly the input subsequence); for the input strengths [-70, -40, None]
the displayed order is [None, -40, -70]. -/
theorem bleak_discover_sorted_stable (raw : List RawDevice) :
    Bleak.SortedDesc (Bleak.discover_devices (Except.ok raw))
    ∧ (∀ k : Int,
        (Bleak.discover_devices (Except.ok raw)).filter (fun d => Bleak.rssiOf d == k)
          = (raw.map Bleak.entryOf).filter (fun d => Bleak.rssiOf d == k))
    ∧ Bleak.discover_devices (Except.ok bleExampleRaw)
        = [("CC:CC", "C", 0), ("BB:BB", "B", -40), ("AA:AA", "A", -70)] := by
  refine ⟨?_, ?_, by decide⟩
  · exact Bleak.sortedDesc_sortAux _ [] (by simp [Bleak.SortedDesc])
  · intro k
    have h := Bleak.filter_sortAux (raw.map Bleak.entryOf) [] (by simp [Bleak.SortedDesc]) k
    simpa [Bleak.discover_devices, Bleak.sortByRssiDesc] using h

/-- C1 witness: the amended theorem evaluated on the scenario input, with
the stability conjunct instantiated at the key 0. -/
theorem bleak_discover_sorted_stable_witness :
    Bleak.SortedDesc (Bleak.discover_devices (Except.ok bleExampleRaw))
    ∧ (Bleak.discover_devices (Except.ok bleExampleRaw)).filter
        (fun d => Bleak.rssiOf d == (0 : Int))
      = (bleExampleRaw.map Bleak.entryOf).filter (fun d => Bleak.rssiOf d == (0 : Int))
    ∧ Bleak.discover_devices (Except.ok bleExampleRaw)
        = [("CC:CC", "C", 0), ("BB:BB", "B", -40), ("AA:AA", "A", -70)] :=
  ⟨(bleak_discover_sorted_stable bleExampleRaw).1,
   (bleak_discover_sorted_stable bleExampleRaw).2.1 0,
   (bleak_discover_sorted_stable bleExampleRaw).2.2⟩

namespace Classic

/-- A loosely-typed Python value as it occurs inside SDP records and
protocol descriptors. The five uuid constructors stand for the distinct
constants bluetooth.L2CAP_UUID, RFCOMM_UUID, OBEX_UUID, TCP_UUID and
UDP_UUID of the external PyBluez module (abstract here: the source only ever
compares a descriptor head against them for equality). -/
inductive PyVal where
  | vBool (b : Bool)
  | vInt (i : Int)
  | vStr (s : String)
  | uuidL2CAP
  | uuidRFCOMM
  | uuidOBEX
  | uuidTCP
  | uuidUDP
deriving DecidableEq

/-- One element of a protocol descriptor list: either a list/tuple of items
(seq) or some other value, which isinstance(proto_desc, (list, tuple))
filters out. -/
inductive ProtoDesc where
  | seq (items : List PyVal)
  | nonSeq (v : PyVal)
deriving DecidableEq

/-- Python dict assignment d[k] = v on a dict kept as an insertion-ordered
association list: an existing key is updated in place, a new key is appended
at the end. -/
def dictInsert (l : List (String × PyVal)) (k : String) (v : PyVal) :
    List (String × PyVal) :=
  match l with
  | [] => [(k, v)]
  | (k0, v0) :: t => if k0 = k then (k0, v) :: t else (k0, v0) :: dictInsert t k v

/-- One iteration of the loop of parse_protocol_descriptor
(src/bluetooth_scanner.py lines 117-135): non-sequences and empty sequences
are skipped, recognized protocol uuids set their flag (and capture the
following parameter for L2CAP and RFCOMM), anything else is silently
ignored. -/
def parseStep (protocols : List (String × PyVal)) (d : ProtoDesc) :
    List (String × PyVal) :=
  match d with
  | ProtoDesc.nonSeq _ => protocols
  | ProtoDesc.seq [] => protocols
  | ProtoDesc.seq (u :: rest) =>
    match u with
    | PyVal.uuidL2CAP =>
      let p := dictInsert protocols "L2CAP" (PyVal.vBool true)
      match rest with
      | [] => p
      | v :: _ => dictInsert p "PSM" v
    | PyVal.uuidRFCOMM =>
      let p := dictInsert protocols "RFCOMM" (PyVal.vBool true)
      match rest with
      | [] => p
      | v :: _ => dictInsert p "Channel" v
    | PyVal.uuidOBEX => dictInsert protocols "OBEX" (PyVal.vBool true)
    | PyVal.uuidTCP => dictInsert protocols "TCP" (PyVal.vBool true)
    | PyVal.uuidUDP => dictInsert protocols "UDP" (PyVal.vBool true)
    | _ => protocols

/-- What iterating over proto_desc_list does: either it yields a list of
elements, or it yields a prefix and then raises an exception whose str() is
msg (e.g. a non-iterable argument raises TypeError at once, with pre = []). -/
inductive ProtoInput where
  | ok (l : List ProtoDesc)
  | raisesAfter (pre : List ProtoDesc) (msg : String)
deriving DecidableEq

/-- Embedding of parse_protocol_descriptor (src/bluetooth_scanner.py lines
104-139): the descriptor elements are folded through parseStep starting from
the empty dict; if iteration raises, the except clause stores the exception
text under the key parse_error next to the flags captured so far. -/
def parse_protocol_descriptor : ProtoInput → List (String × PyVal)
  | ProtoInput.ok l => l.foldl parseStep []
  | ProtoInput.raisesAfter pre msg =>
    dictInsert (pre.foldl parseStep []) "parse_error" (PyVal.vStr msg)

/-- True of the uuids the parser recognizes. -/
def recognizedUuid : PyVal → Bool
  | PyVal.uuidL2CAP => true
  | PyVal.uuidRFCOMM => true
  | PyVal.uuidOBEX => true
  | PyVal.uuidTCP => true
  | PyVal.uuidUDP => true
  | _ => false

/-- A descriptor element that carries an identifier outside the recognized
set. -/
def unrecognizedDescriptor : ProtoDesc → Bool
  | ProtoDesc.seq (u :: _) => !(recognizedUuid u)
  | _ => false

theorem parseStep_unrecognized {acc : List (String × PyVal)} {d : ProtoDesc}
    (h : unrecognizedDescriptor d = true) : parseStep acc d = acc := by
  cases d with
  | nonSeq v => rfl
  | seq items =>
    cases items with
    | nil => rfl
    | cons u rest =>
      rw [unrecognizedDescriptor, Bool.not_eq_true'] at h
      cases u <;> first | rfl | simp [recognizedUuid] at h

theorem mem_dictInsert {l : List (String × PyVal)} {k : String} {v : PyVal}
    {kv : String × PyVal} (h : kv ∈ dictInsert l k v) : kv ∈ l ∨ kv.1 = k := by
  induction l with
  | nil =>
    rw [dictInsert] at h
    rcases List.mem_singleton.mp h with rfl
    exact Or.inr rfl
  | cons p t ih =>
    obtain ⟨k0, v0⟩ := p
    rw [dictInsert] at h
    split at h
    case isTrue he =>
      rcases List.mem_cons.mp h with rfl | h2
      · exact Or.inr he
      · exact Or.inl (List.mem_cons_of_mem _ h2)
    case isFalse he =>
      rcases List.mem_cons.mp h with rfl | h2
      · exact Or.inl (List.mem_cons_self _ _)
      · rcases ih h2 with h3 | h3
        · exact Or.inl (List.mem_cons_of_mem _ h3)
        · exact Or.inr h3

theorem parseStep_no_parse_error {acc : List (String × PyVal)} {d : ProtoDesc}
    (hacc : ∀ kv ∈ acc, kv.1 ≠ "parse_error") :
    ∀ kv ∈ parseStep acc d, kv.1 ≠ "parse_error" := by
  intro kv h
  cases d with
  | nonSeq v => exact hacc kv h
  | seq items =>
    cases items with
    | nil => exact hacc kv h
    | cons u rest =>
      cases u with
      | vBool b => exact hacc kv h
      | vInt i => exact hacc kv h
      | vStr s => exact hacc kv h
      | uuidL2CAP =>
        cases rest with
        | nil =>
          simp only [parseStep] at h
          rcases mem_dictInsert h with h2 | h2
          · exact hacc kv h2
          · rw [h2]; decide
        | cons v vs =>
          simp only [parseStep] at h
          rcases mem_dictInsert h with h2 | h2
          · rcases mem_dictInsert h2 with h3 | h3
            · exact hacc kv h3
            · rw [h3]; decide
          · rw [h2]; decide
      | uuidRFCOMM =>
        cases rest with
        | nil =>
          simp only [parseStep] at h
          rcases mem_dictInsert h with h2 | h2
          · exact hacc kv h2
          · rw [h2]; decide
        | cons v vs =>
          simp only [parseStep] at h
          rcases mem_dictInsert h with h2 | h2
          · rcases mem_dictInsert h2 with h3 | h3
            · exact hacc kv h3
            · rw [h3]; decide
          · rw [h2]; decide
      | uuidOBEX =>
        simp only [parseStep] at h
        rcases mem_dictInsert h with h2 | h2
        · exact hacc kv h2
        · rw [h2]; decide
      | uuidTCP =>
        simp only [parseStep] at h
        rcases mem_dictInsert h with h2 | h2
        · exact hacc kv h2
        · rw [h2]; decide
      | uuidUDP =>
        simp only [parseStep] at h
        rcases mem_dictInsert h with h2 | h2
        · exact hacc kv h2
        · rw [h2]; decide

theorem foldl_no_parse_error (l : List ProtoDesc) :
    ∀ acc, (∀ kv ∈ acc, kv.1 ≠ "parse_error") →
      ∀ kv ∈ l.foldl parseStep acc, kv.1 ≠ "parse_error" := by
  induction l with
  | nil => intro acc hacc; simpa using hacc
  | cons d ds ih =>
    intro acc hacc
    rw [List.foldl_cons]
    exact ih _ (parseStep_no_parse_error hacc)

theorem dictInsert_of_fresh {l : List (String × PyVal)} {k : String} {v : PyVal}
    (h : ∀ kv ∈ l, kv.1 ≠ k) : dictInsert l k v = l ++ [(k, v)] := by
  induction l with
  | nil => rfl
  | cons p t ih =>
    obtain ⟨k0, v0⟩ := p
    have hk0 : k0 ≠ k := h (k0, v0) (List.mem_cons_self _ _)
    rw [dictInsert, if_neg hk0, List.cons_append,
      ih (fun kv hkv => h kv (List.mem_cons_of_mem _ hkv))]

theorem foldl_unrecognized (l : List ProtoDesc) :
    ∀ acc, (∀ d ∈ l, unrecognizedDescriptor d = true) →
      l.foldl parseStep acc = acc := by
  induction l with
  | nil => intro acc _; rfl
  | cons d ds ih =>
    intro acc h
    rw [List.foldl_cons, parseStep_unrecognized (h d (List.mem_cons_self _ _))]
    exact ih acc (fun e he => h e (List.mem_cons_of_mem _ he))

end Classic

/-- C8: the protocol-descriptor parser maps a descriptor whose head is the
RFCOMM (reliable stream) uuid followed by the parameter 5 to the flag set
with RFCOMM set and Channel equal to 5, and maps any descriptor list whose
identifiers all lie outside the recognized set to the empty flag set with no
error. -/
theorem parse_protocol_rfcomm_and_unrecognized (l : List Classic.ProtoDesc)
    (h : ∀ d ∈ l, Classic.unrecognizedDescriptor d = true) :
    Classic.parse_protocol_descriptor (Classic.ProtoInput.ok l) = []
    ∧ Classic.parse_protocol_descriptor
        (Classic.ProtoInput.ok
          [Classic.ProtoDesc.seq [Classic.PyVal.uuidRFCOMM, Classic.PyVal.vInt 5]])
      = [("RFCOMM", Classic.PyVal.vBool true), ("Channel", Classic.PyVal.vInt 5)] := by
  exact ⟨Classic.foldl_unrecognized l [] h, by decide⟩

/-- C8 witness: a descriptor list with a string identifier and an integer
identifier, both unrecognized, parses to the empty flag set, while the
RFCOMM descriptor with parameter 5 yields Channel=5. -/
theorem parse_protocol_rfcomm_and_unrecognized_witness :
    Classic.parse_protocol_descriptor
      (Classic.ProtoInput.ok
        [Classic.ProtoDesc.seq [Classic.PyVal.vStr "foo"],
         Classic.ProtoDesc.seq [Classic.PyVal.vInt 99, Classic.PyVal.vInt 1]]) = []
    ∧ Classic.parse_protocol_descriptor
        (Classic.ProtoInput.ok
          [Classic.ProtoDesc.seq [Classic.PyVal.uuidRFCOMM, Classic.PyVal.vInt 5]])
      = [("RFCOMM", Classic.PyVal.vBool true), ("Channel", Classic.PyVal.vInt 5)] :=
  parse_protocol_rfcomm_and_unrecognized
    [Classic.ProtoDesc.seq [Classic.PyVal.vStr "foo"],
     Classic.ProtoDesc.seq [Classic.PyVal.vInt 99, Classic.PyVal.vInt 1]]
    (by decide)

/-- C9: when walking the descriptor list raises after yielding any prefix,
parse_protocol_descriptor catches the exception and returns the flags
captured from the prefix with exactly one extra parse_error entry, appended
last, carrying the exception text; no key of a normally parsed prefix is
ever parse_error, so the entry is unique, and the function returns rather
than propagating. -/
theorem parse_protocol_descriptor_error (pre : List Classic.ProtoDesc) (msg : String) :
    Classic.parse_protocol_descriptor (Classic.ProtoInput.raisesAfter pre msg)
      = Classic.parse_protocol_descriptor (Classic.ProtoInput.ok pre)
        ++ [("parse_error", Classic.PyVal.vStr msg)]
    ∧ ∀ kv ∈ Classic.parse_protocol_descriptor (Classic.ProtoInput.ok pre),
        kv.1 ≠ "parse_error" := by
  have hk : ∀ kv ∈ List.foldl Classic.parseStep [] pre, kv.1 ≠ "parse_error" :=
    Classic.foldl_no_parse_error pre [] (by simp)
  exact ⟨Classic.dictInsert_of_fresh hk, hk⟩

/-- C9 witness: a walk that yields an L2CAP descriptor and then raises with
text boom returns the L2CAP flags followed by the single parse_error entry. -/
theorem parse_protocol_descriptor_error_witness :
    Classic.parse_protocol_descriptor
      (Classic.ProtoInput.raisesAfter
        [Classic.ProtoDesc.seq [Classic.PyVal.uuidL2CAP, Classic.PyVal.vInt 3]] "boom")
      = Classic.parse_protocol_descriptor
          (Classic.ProtoInput.ok
            [Classic.ProtoDesc.seq [Classic.PyVal.uuidL2CAP, Classic.PyVal.vInt 3]])
        ++ [("parse_error", Classic.PyVal.vStr "boom")]
    ∧ ∀ kv ∈ Classic.parse_protocol_descriptor
          (Classic.ProtoInput.ok
            [Classic.ProtoDesc.seq [Classic.PyVal.uuidL2CAP, Classic.PyVal.vInt 3]]),
        kv.1 ≠ "parse_error" :=
  parse_protocol_descriptor_error
    [Classic.ProtoDesc.seq [Classic.PyVal.uuidL2CAP, Classic.PyVal.vInt 3]] "boom"

namespace Classic

/-- The argument passed to get_service_class_name, by the isinstance branch
that normalizes it: a str, an int, or anything else together with its str()
form. -/
inductive UuidArg where
  | ofStr (s : String)
  | ofInt (i : Int)
  | ofOther (reprStr : String)
deriving DecidableEq

/-- Embedding of Python hex(i): 0x followed by lowercase hex digits, with a
leading minus for negative arguments. -/
def pyHex (i : Int) : String :=
  if i < 0 then "-0x" ++ String.mk (Nat.toDigits 16 i.natAbs)
  else "0x" ++ String.mk (Nat.toDigits 16 i.toNat)

/-- The normalization uuid_str of src/bluetooth_scanner.py line 178:
a str is kept, an int is rendered with hex(), anything else with str(). -/
def uuid_str : UuidArg → String
  | UuidArg.ofStr s => s
  | UuidArg.ofInt i => pyHex i
  | UuidArg.ofOther r => r

/-- The fixed service_classes dict of get_service_class_name
(src/bluetooth_scanner.py lines 153-176). -/
def service_classes : List (String × String) :=
  [("0x1101", "Serial Port Profile (SPP)"),
   ("0x1105", "OBEX Object Push"),
   ("0x1106", "OBEX File Transfer"),
   ("0x110a", "Audio Source"),
   ("0x110b", "Audio Sink"),
   ("0x110c", "A/V Remote Control Target"),
   ("0x110e", "A/V Remote Control"),
   ("0x110f", "Video Conferencing"),
   ("0x1112", "Headset - Audio Gateway (AG)"),
   ("0x1115", "Personal Area Network (PANU)"),
   ("0x1116", "Network Access Point (NAP)"),
   ("0x1117", "Group Network (GN)"),
   ("0x111e", "Handsfree"),
   ("0x111f", "Handsfree Audio Gateway"),
   ("0x1124", "Human Interface Device (HID)"),
   ("0x1126", "HID Keyboard"),
   ("0x1127", "HID Mouse"),
   ("0x112d", "SIM Access"),
   ("0x112f", "Phonebook Access (PBAP)"),
   ("0x1130", "Phonebook Access PSE"),
   ("0x1132", "Message Access Server"),
   ("0x1203", "Generic Audio")]

/-- Python dict.get on an association list. -/
def dictGet (l : List (String × String)) (k : String) : Option String :=
  match l with
  | [] => none
  | (k0, v0) :: t => if k0 = k then some v0 else dictGet t k

/-- Embedding of get_service_class_name (src/bluetooth_scanner.py lines
142-179): normalize the argument to a string and look it up in the fixed
table, with the normalized string itself as the default. -/
def get_service_class_name (uuid : UuidArg) : String :=
  (dictGet service_classes (uuid_str uuid)).getD (uuid_str uuid)

end Classic

/-- C7: get_service_class_name is a total function: the input is normalized
to a string (hex form for an int), a normalized string present in the fixed
table returns its label — name_for of the string 0x1101, and of the int
0x1101 through hex(), is Serial Port Profile (SPP) — and a normalized
string absent from the table is returned unchanged. -/
theorem get_service_class_name_total (uuid : Classic.UuidArg)
    (h : Classic.dictGet Classic.service_classes (Classic.uuid_str uuid) = none) :
    Classic.get_service_class_name uuid = Classic.uuid_str uuid
    ∧ Classic.get_service_class_name (Classic.UuidArg.ofStr "0x1101")
        = "Serial Port Profile (SPP)"
    ∧ Classic.get_service_class_name (Classic.UuidArg.ofInt 4353)
        = "Serial Port Profile (SPP)" := by
  refine ⟨?_, by decide, by decide⟩
  rw [Classic.get_service_class_name, h]
  rfl

/-- C7 witness: the unknown code 0xffff is returned unchanged, and both
forms of 0x1101 map to the SPP label. -/
theorem get_service_class_name_total_witness :
    Classic.get_service_class_name (Classic.UuidArg.ofStr "0xffff") = "0xffff"
    ∧ Classic.get_service_class_name (Classic.UuidArg.ofStr "0x1101")
        = "Serial Port Profile (SPP)"
    ∧ Classic.get_service_class_name (Classic.UuidArg.ofInt 4353)
        = "Serial Port Profile (SPP)" :=
  get_service_class_name_total (Classic.UuidArg.ofStr "0xffff") (by decide)

namespace Classic

/-- One SDP record as returned by bluetooth.find_service: every field the
renderer reads, each optional exactly as a Python dict key is. A None field
models an absent key; service-classes, profiles and protocol keep the
source's defaults ([], [] and None). Profile entries are kept as their
Python-rendered strings; the port, an integer in SDP records, is compared
against the falsy 0 and ""-when-absent exactly as the source does. -/
structure ServiceRecord where
  name : Option String
  description : Option String
  provider : Option String
  service_id : Option String
  service_classes : List String
  profiles : List String
  protocol : Option (List ProtoDesc)
  host : Option String
  port : Option Int
deriving DecidableEq

/-- str() of a loosely-typed value, for f-string interpolation; the str()
form of the abstract PyBluez uuid constants is fixed arbitrarily since the
source never prints them. -/
def pyStrOfVal : PyVal → String
  | PyVal.vBool b => if b then "True" else "False"
  | PyVal.vInt i => toString i
  | PyVal.vStr s => s
  | PyVal.uuidL2CAP => "L2CAP_UUID"
  | PyVal.uuidRFCOMM => "RFCOMM_UUID"
  | PyVal.uuidOBEX => "OBEX_UUID"
  | PyVal.uuidTCP => "TCP_UUID"
  | PyVal.uuidUDP => "UDP_UUID"

/-- Python repr of a list of strings, as printed for profiles. -/
def pyReprStrList (l : List String) : String :=
  "[" ++ String.intercalate ", " (l.map (fun s => "\x27" ++ s ++ "\x27")) ++ "]"

/-- One rendered protocol flag: a True flag by name alone, a False flag
skipped, any other captured value as name=value. -/
def protoFlagStr (kv : String × PyVal) : Option String :=
  match kv.2 with
  | PyVal.vBool b => if b then some kv.1 else none
  | v => some (kv.1 ++ "=" ++ pyStrOfVal v)

/-- A run of n copies of one character (the - and = rules of the report). -/
def charLine (c : Char) (n : Nat) : String := String.mk (List.replicate n c)

/-- The block printed for the idx-th service by the loop of
list_sdp_services (src/bluetooth_scanner.py lines 203-258): the name always
(with the placeholder when the key is absent), then each optional field only
when its value is truthy — so an empty string, an empty list or a zero port
is omitted exactly like an absent key. -/
def renderService (idx : Nat) (s : ServiceRecord) : List String :=
  ["\nService #" ++ toString idx, charLine '-' 80,
   "  Name:        " ++ s.name.getD "<Unnamed Service>"]
  ++ (match s.description with
      | some d => if d = "" then [] else ["  Description: " ++ d]
      | none => [])
  ++ (match s.provider with
      | some p => if p = "" then [] else ["  Provider:    " ++ p]
      | none => [])
  ++ (match s.service_id with
      | some i => if i = "" then [] else ["  Service ID:  " ++ i]
      | none => [])
  ++ (if s.service_classes.isEmpty then []
      else ["  Classes:     " ++ String.intercalate ", "
        (s.service_classes.map (fun sc => get_service_class_name (UuidArg.ofStr sc)))])
  ++ (if s.profiles.isEmpty then []
      else ["  Profiles:    " ++ pyReprStrList s.profiles])
  ++ (match s.protocol with
      | some pd =>
        if pd.isEmpty then []
        else
          let protocols := parse_protocol_descriptor (ProtoInput.ok pd)
          if protocols.isEmpty then []
          else ["  Protocols:   " ++ String.intercalate ", "
            (protocols.filterMap protoFlagStr)]
      | none => [])
  ++ (match s.host with
      | some h => if h = "" then [] else ["  Host:        " ++ h]
      | none => [])
  ++ (match s.port with
      | some p => if p = 0 then [] else ["  Port:        " ++ toString p]
      | none => [])

/-- The two lines printed before the find_service call. -/
def queryMsgs (device_address device_name : String) : List String :=
  ["\n[*] Querying SDP services on \x27" ++ device_name ++ "\x27 ("
      ++ device_address ++ ")...",
   "[*] This may take a moment...\n"]

/-- The notice printed by the except clauses of list_sdp_services: PyBluez
BluetoothError and any other exception get distinct texts. -/
def svcErrorNotice : PyErr → String
  | PyErr.bluetoothError e => "[!] Bluetooth error while querying services: " ++ e
  | PyErr.otherError e => "[!] Error while querying SDP services: " ++ e

/-- Embedding of list_sdp_services (src/bluetooth_scanner.py lines 182-266)
as the list of lines it prints: the query notices, then either the caught
backend error notice, the no-services notice, or the numbered service blocks
with the closing total. -/
def list_sdp_services (device_address device_name : String)
    (backend : Except PyErr (List ServiceRecord)) : List String :=
  queryMsgs device_address device_name
  ++ match backend with
     | Except.error e => [svcErrorNotice e]
     | Except.ok services =>
       if services.isEmpty then ["[!] No SDP services found on this device."]
       else
         ["[+] Found " ++ toString services.length ++ " service(s):\n", charLine '=' 80]
         ++ List.flatten (services.enum.map (fun p => renderService (p.1 + 1) p.2))
         ++ ["\n" ++ charLine '=' 80,
             "[+] Total services listed: " ++ toString services.length ++ "\n"]

end Classic

/-- C10: in a rendered service block, a field that is present but falsy —
an empty-string description, provider or host, or a port equal to 0 — is
omitted exactly as if the field were absent, while the name line always
appears, with the placeholder only substituting an absent name. -/
theorem renderService_falsy_omitted (idx : Nat) (s : Classic.ServiceRecord) :
    Classic.renderService idx { s with description := some "" }
      = Classic.renderService idx { s with description := none }
    ∧ Classic.renderService idx { s with provider := some "" }
      = Classic.renderService idx { s with provider := none }
    ∧ Classic.renderService idx { s with host := some "" }
      = Classic.renderService idx { s with host := none }
    ∧ Classic.renderService idx { s with port := some 0 }
      = Classic.renderService idx { s with port := none }
    ∧ ("  Name:        " ++ s.name.getD "<Unnamed Service>")
        ∈ Classic.renderService idx s := by
  refine ⟨?_, ?_, ?_, ?_, ?_⟩ <;> simp [Classic.renderService]

/-- C10 witness: on a record with every field present but the listed ones
falsy, the rendered block coincides with the all-absent rendering and still
carries the name line. -/
theorem renderService_falsy_omitted_witness :
    Classic.renderService 1
        { name := some "Svc", description := some "", provider := some "",
          service_id := none, service_classes := [], profiles := [],
          protocol := none, host := some "", port := some 0 }
      = Classic.renderService 1
        { name := some "Svc", description := none, provider := some "",
          service_id := none, service_classes := [], profiles := [],
          protocol := none, host := some "", port := some 0 }
    ∧ "  Name:        Svc" ∈ Classic.renderService 1
        { name := some "Svc", description := some "", provider := some "",
          service_id := none, service_classes := [], profiles := [],
          protocol := none, host := some "", port := some 0 } := by
  have h := renderService_falsy_omitted 1
    { name := some "Svc", description := some "", provider := some "",
      service_id := none, service_classes := [], profiles := [],
      protocol := none, host := some "", port := some 0 }
  exact ⟨h.1, h.2.2.2.2⟩

namespace Classic

/-- The two lines printed before the backend discovery call. -/
def discoverHeader : List String :=
  ["[*] Scanning for Bluetooth devices (duration: 8s)...",
   "[*] Please wait...\n"]

/-- Embedding of discover_devices (src/bluetooth_scanner.py lines 27-50):
the PyBluez result is a list of (address, name) pairs, where a name may be
None; a backend exception is caught, reported and turned into the empty
list. Returns the devices paired with the printed lines. -/
def discover_devices (backend : Except PyErr (List (String × Option String))) :
    List (String × Option String) × List String :=
  match backend with
  | Except.ok l => (l, discoverHeader)
  | Except.error e =>
    ([], discoverHeader ++ ["[!] Error during device discovery: " ++ pyErrMsg e])

/-- Python format spec with a minimum field width: pad on the right with
spaces, never truncate. -/
def padRight (s : String) (w : Nat) : String :=
  s ++ String.mk (List.replicate (w - s.length) ' ')

/-- Embedding of display_devices (src/bluetooth_scanner.py lines 53-71) as
its printed lines. -/
def display_devices (devices : List (String × Option String)) : List String :=
  if devices.isEmpty then ["[!] No devices found."]
  else
    ["[+] Found " ++ toString devices.length ++ " device(s):\n",
     padRight "#" 4 ++ " " ++ padRight "Name" 30 ++ " " ++ padRight "Address" 20,
     charLine '-' 60]
    ++ devices.enum.map (fun p =>
        padRight (toString (p.1 + 1)) 4 ++ " " ++ padRight (effName p.2.2) 30
          ++ " " ++ padRight p.2.1 20)
    ++ [""]

/-- What one run of the process observably did: its exit status, whether the
interactive selector was ever entered, and the lines printed. -/
structure MainResult where
  exitCode : Nat
  selectorInvoked : Bool
  output : List String
deriving DecidableEq

/-- The banner printed at startup. -/
def bannerLines : List String :=
  [charLine '=' 60, "  Bluetooth Device Scanner & SDP Service Lister",
   charLine '=' 60, ""]

/-- The checklist of likely causes printed when discovery finds nothing
(src/bluetooth_scanner.py lines 277-280). -/
def noDevicesChecklist : List String :=
  ["[!] No devices found. Please ensure:",
   "    - Bluetooth is enabled on this computer",
   "    - Target devices are in pairing/discoverable mode",
   "    - Target devices are within range"]

/-- The top-level fatal-error notice of the __main__ guard. -/
def fatalNotice (msg : String) : String := "\n[!] Fatal error: " ++ msg

/-- Embedding of main plus the __main__ guard (src/bluetooth_scanner.py
lines 269-312), parametrized by the backend discovery result, the
interactive events, and the backend service-enumeration result. Zero
devices exit with status 1 before the selector runs; exhausted input (an
EOFError out of input()) escapes to the top-level handler, which exits 1;
a quit or interrupt exits 0; after a successful selection the service
report runs, its backend errors caught inside list_sdp_services, and the
process completes with status 0. -/
def main (backendDiscover : Except PyErr (List (String × Option String)))
    (events : List InEvent)
    (backendServices : Except PyErr (List ServiceRecord)) : MainResult :=
  let dres := discover_devices backendDiscover
  let devices := dres.1
  if devices.isEmpty then
    { exitCode := 1, selectorInvoked := false,
      output := bannerLines ++ dres.2 ++ noDevicesChecklist }
  else
    let sel := select_device devices events
    let pre := bannerLines ++ dres.2 ++ display_devices devices ++ sel.2
    match sel.1 with
    | none =>
      { exitCode := 1, selectorInvoked := true,
        output := pre ++ [fatalNotice "EOF when reading a line"] }
    | some none =>
      { exitCode := 0, selectorInvoked := true,
        output := pre ++ ["[*] Exiting..."] }
    | some (some dev) =>
      let device_name := effName dev.2
      { exitCode := 0, selectorInvoked := true,
        output := pre
          ++ ["\n[+] Selected: " ++ device_name ++ " (" ++ dev.1 ++ ")"]
          ++ list_sdp_services dev.1 device_name backendServices
          ++ ["[*] Scan complete!"] }

end Classic

/-- C5: whenever discovery yields zero devices — in particular whenever the
backend discovery call raises, which is caught and yields zero devices
rather than propagating — the orchestrator prints the checklist of likely
causes, exits with status 1, and never invokes the selector. -/
theorem main_no_devices (backendDiscover : Except PyErr (List (String × Option String)))
    (events : List InEvent) (backendServices : Except PyErr (List Classic.ServiceRecord))
    (e : PyErr)
    (h : (Classic.discover_devices backendDiscover).1 = []) :
    (Classic.main backendDiscover events backendServices).exitCode = 1
    ∧ (Classic.main backendDiscover events backendServices).selectorInvoked = false
    ∧ Classic.noDevicesChecklist
        <:+ (Classic.main backendDiscover events backendServices).output
    ∧ (Classic.discover_devices (Except.error e)).1 = [] := by
  have hemp : (Classic.discover_devices backendDiscover).1.isEmpty = true := by
    rw [h]; rfl
  rw [Classic.main]
  simp only [hemp, if_true]
  refine ⟨trivial, trivial, ?_, rfl⟩
  exact List.suffix_append _ _

/-- C5 witness: a raising discovery backend produces exit status 1, no
selector invocation, and the checklist as a suffix of the output. -/
theorem main_no_devices_witness :
    (Classic.main (Except.error (PyErr.otherError "boom")) [] (Except.ok [])).exitCode = 1
    ∧ (Classic.main (Except.error (PyErr.otherError "boom")) []
        (Except.ok [])).selectorInvoked = false
    ∧ Classic.noDevicesChecklist
        <:+ (Classic.main (Except.error (PyErr.otherError "boom")) [] (Except.ok [])).output
    ∧ (Classic.discover_devices (Except.error (PyErr.bluetoothError "x"))).1 = [] :=
  main_no_devices (Except.error (PyErr.otherError "boom")) [] (Except.ok [])
    (PyErr.bluetoothError "x") rfl

/-- C6: when discovery succeeds with a non-empty catalog and the selector
resolves to a device, a backend error raised during service enumeration is
caught inside list_sdp_services: its notice is printed, the completion
notice still follows, and the process exits with status 0. -/
theorem main_enum_error (devs : List (String × Option String)) (events : List InEvent)
    (e : PyErr) (dev : String × Option String)
    (hne : devs ≠ [])
    (hsel : (select_device devs events).1 = some (some dev)) :
    (Classic.main (Except.ok devs) events (Except.error e)).exitCode = 0
    ∧ Classic.svcErrorNotice e
        ∈ (Classic.main (Except.ok devs) events (Except.error e)).output
    ∧ "[*] Scan complete!"
        ∈ (Classic.main (Except.ok devs) events (Except.error e)).output := by
  have hemp : devs.isEmpty = false := by
    cases devs with
    | nil => exact absurd rfl hne
    | cons a t => rfl
  rw [Classic.main]
  simp only [Classic.discover_devices, hemp, Bool.false_eq_true, if_false, hsel]
  refine ⟨trivial, ?_, ?_⟩
  · simp [Classic.list_sdp_services]
  · simp

/-- C6 witness: with one discovered device selected by the line 1 and an
enumeration backend that raises BluetoothError err, the run exits 0 and
prints both the error notice and the completion notice. -/
theorem main_enum_error_witness :
    (Classic.main (Except.ok [("AA", some "Alpha")]) [InEvent.line "1"]
        (Except.error (PyErr.bluetoothError "err"))).exitCode = 0
    ∧ Classic.svcErrorNotice (PyErr.bluetoothError "err")
        ∈ (Classic.main (Except.ok [("AA", some "Alpha")]) [InEvent.line "1"]
            (Except.error (PyErr.bluetoothError "err"))).output
    ∧ "[*] Scan complete!"
        ∈ (Classic.main (Except.ok [("AA", some "Alpha")]) [InEvent.line "1"]
            (Except.error (PyErr.bluetoothError "err"))).output :=
  main_enum_error [("AA", some "Alpha")] [InEvent.line "1"]
    (PyErr.bluetoothError "err") ("AA", some "Alpha") (by decide) (by decide)

end BTScan
